import Mathlib

/-!
Verification of the break-tracker polling loop (src/tracker.py).

The program polls a garage-door device, detects state transitions, and
records each transition as a row in a tabular sink.  The definitions below
are a shallow embedding of the loop body (`poll_loop`, lines 107-130), the
row writer (`append_row`, lines 54-69) and the startup path that selects
the polling interval (lines 74 and 88-91).  Machine time is modelled by
rationals (Python `datetime` subtraction is exact), and every Python
exception caught by the loop's `except` clause is modelled as an explicit
outcome value, so the loop body is a total function on states and inputs.
-/

namespace BreakTracker

/-- An instant in UTC as `datetime.now(timezone.utc)` yields it: a position
on the time line (`epochSeconds`, the view used when two instants are
subtracted via `total_seconds()`) together with its calendar fields (the
view used by `strftime`).  The rational `epochSeconds` carries no signed
zero and no rounding, matching the exactness of `datetime` arithmetic to
within its microsecond resolution. -/
structure Instant where
  epochSeconds : ℚ
  year : Nat
  month : Nat
  day : Nat
  hour : Nat
  minute : Nat
  second : Nat
deriving DecidableEq

/-- Zero-pad a numeric field to two digits, as `strftime` does for
`%m %d %H %M %S`. -/
def pad2 (n : Nat) : String :=
  if n < 10 then "0" ++ toString n else toString n

/-- Zero-pad the year to four digits, as `strftime` does for `%Y`. -/
def pad4 (n : Nat) : String :=
  if n < 10 then "000" ++ toString n
  else if n < 100 then "00" ++ toString n
  else if n < 1000 then "0" ++ toString n
  else toString n

/-- `now.strftime("%Y-%m-%d %H:%M:%S UTC")` (tracker.py line 112). -/
def strftimeUTC (t : Instant) : String :=
  pad4 t.year ++ "-" ++ pad2 t.month ++ "-" ++ pad2 t.day ++ " " ++
    pad2 t.hour ++ ":" ++ pad2 t.minute ++ ":" ++ pad2 t.second ++ " UTC"

/-- Round to the nearest integer, ties to even — the rounding used by
Python float formatting. -/
def roundHalfEven (q : ℚ) : ℤ :=
  if q - Int.floor q < 1 / 2 then Int.floor q
  else if q - Int.floor q > 1 / 2 then Int.floor q + 1
  else if Int.floor q % 2 = 0 then Int.floor q else Int.floor q + 1

/-- `f"{x:.1f}"`: format with exactly one digit after the decimal point
(tracker.py line 63).  Modelled over ℚ, which has no negative zero. -/
def fmt1 (q : ℚ) : String :=
  if roundHalfEven (10 * q) < 0 then
    "-" ++ toString ((roundHalfEven (10 * q)).natAbs / 10) ++ "." ++
      toString ((roundHalfEven (10 * q)).natAbs % 10)
  else
    toString ((roundHalfEven (10 * q)).toNat / 10) ++ "." ++
      toString ((roundHalfEven (10 * q)).toNat % 10)

/-- `dur_str = f"{duration_min:.1f}" if duration_min is not None else ""`
(tracker.py line 63). -/
def dur_str : Option ℚ → String
  | some d => fmt1 d
  | none => ""

/-- Left-justify in a field of width `w` (`f"{s:<6}"`). -/
def padRight (s : String) (w : Nat) : String :=
  s ++ String.mk (List.replicate (w - s.length) ' ')

/-- Right-justify in a field of width `w` (`f"{s:>6}"`). -/
def padLeft (s : String) (w : Nat) : String :=
  String.mk (List.replicate (w - s.length) ' ') ++ s

/-- What one call of `append_row` does to the outside world: in dry-run
mode it prints a line; otherwise it appends a row to the sheet. -/
inductive SinkOutput where
  | printed (line : String)
  | appended (row : List String)
deriving DecidableEq

/-- `append_row` (tracker.py lines 54-69): build `dur_str` and the row
`[timestamp, event, dur_str, notes]`, then either print the dry-run line or
append the row to the sheet. -/
def append_row (timestamp event : String) (duration_min : Option ℚ)
    (notes : String) (dry_run : Bool) : SinkOutput :=
  if dry_run then
    SinkOutput.printed ("[DRY RUN]  " ++ timestamp ++ "  " ++ padRight event 6 ++
      "  dur=" ++ padLeft (dur_str duration_min) 6 ++ " min  notes=" ++ notes)
  else
    SinkOutput.appended [timestamp, event, dur_str duration_min, notes]

/-- The event data handed to `append_row` by the loop: the poll instant
(whose `strftime` rendering is the row's timestamp), the kind string, the
optional duration in minutes, and the notes string. -/
structure Event where
  ts : Instant
  kind : String
  duration_min : Option ℚ
  notes : String
deriving DecidableEq

/-- The loop's mutable state (tracker.py lines 75-76): `prev_state`
(`None` until a first successful poll) and `last_open_time`. -/
structure LoopState where
  prev_state : Option String
  last_open_time : Option Instant
deriving DecidableEq

/-- The state at loop entry: `prev_state = None`, `last_open_time = None`. -/
def initialState : LoopState := ⟨none, none⟩

/-- What one iteration of the `while True` body is given: either
`door.update()` raises (a transient poll failure), or the poll succeeds
with a state string at an instant, with `sinkOk` telling whether a
`sheet.append_row` call made this iteration would succeed or raise. -/
inductive PollInput where
  | fail : PollInput
  | ok (state : String) (sinkOk : Bool) (now : Instant) : PollInput
deriving DecidableEq

/-- How one iteration ended: no event branch was taken, an event row was
recorded, or `append_row` raised while recording the event (the exception
is caught at line 127, so the loop continues either way). -/
inductive IterResult where
  | noEvent : IterResult
  | recorded (e : Event) : IterResult
  | sinkError (e : Event) : IterResult
deriving DecidableEq

/-- The event this iteration passed to `append_row`, whether or not the
write succeeded. -/
def eventOf : IterResult → Option Event
  | IterResult.noEvent => none
  | IterResult.recorded e => some e
  | IterResult.sinkError e => some e

/-- One iteration of the loop body (tracker.py lines 107-130).  On a poll
failure the `except` clause fires before any state is touched.  On success
the transition test `current_state != prev_state and prev_state is not None`
selects a branch; note that in the source `append_row` is called *before*
`last_open_time = None` (line 123) and `prev_state = current_state`
(line 125), so a sink failure skips those assignments — except that in the
open branch `last_open_time = now` (line 116) has already run. -/
def loopIter (s : LoopState) (i : PollInput) : LoopState × IterResult :=
  match i with
  | PollInput.fail => (s, IterResult.noEvent)
  | PollInput.ok current_state sinkOk now =>
    match s.prev_state with
    | none => ({ s with prev_state := some current_state }, IterResult.noEvent)
    | some p =>
      if current_state = p then
        ({ s with prev_state := some current_state }, IterResult.noEvent)
      else if current_state = "open" then
        if sinkOk then
          (⟨some current_state, some now⟩,
            IterResult.recorded ⟨now, "OPEN", none, ""⟩)
        else
          ({ s with last_open_time := some now },
            IterResult.sinkError ⟨now, "OPEN", none, ""⟩)
      else if current_state = "closed" then
        match s.last_open_time with
        | some lo =>
          if sinkOk then
            (⟨some current_state, none⟩,
              IterResult.recorded
                ⟨now, "CLOSE", some ((now.epochSeconds - lo.epochSeconds) / 60), ""⟩)
          else
            (s, IterResult.sinkError
              ⟨now, "CLOSE", some ((now.epochSeconds - lo.epochSeconds) / 60), ""⟩)
        | none =>
          if sinkOk then
            (⟨some current_state, none⟩, IterResult.recorded ⟨now, "CLOSE", none, ""⟩)
          else
            (s, IterResult.sinkError ⟨now, "CLOSE", none, ""⟩)
      else
        ({ s with prev_state := some current_state }, IterResult.noEvent)

/-- Run the loop over a list of per-iteration inputs, returning the final
state and the list of events passed to `append_row`, in order. -/
def runTrace (s : LoopState) : List PollInput → LoopState × List Event
  | [] => (s, [])
  | i :: rest =>
    ((runTrace (loopIter s i).1 rest).1,
      (eventOf (loopIter s i).2).toList ++ (runTrace (loopIter s i).1 rest).2)

/-- An input on which any `append_row` call made would succeed (a `fail`
input makes no such call). -/
def sinkOkInput : PollInput → Bool
  | PollInput.fail => true
  | PollInput.ok _ b _ => b

/-- The last element of `evs`, or `l` when `evs` is empty. -/
def lastOr (evs : List Event) (l : Option Event) : Option Event :=
  match evs with
  | [] => l
  | e :: rest => lastOr rest (some e)

/-- The spec's DetectorState invariant: `last_open_time` is non-empty iff
the most recently emitted event (`l`) exists and is an OPEN event. -/
abbrev openInv (s : LoopState) (l : Option Event) : Prop :=
  s.last_open_time ≠ none ↔ l.map Event.kind = some "OPEN"

/-- `interval = cfg.get("polling_interval_seconds", 30)` (tracker.py
line 74): the configured value if present, else 30. -/
def interval (cfg_polling : Option ℤ) : ℤ := cfg_polling.getD 30

/-- How `poll_loop` can proceed after login: `sys.exit(1)` when the device
list is empty (lines 88-91), otherwise it enters the `while True` loop
sleeping `interval` seconds per iteration. -/
inductive StartupResult where
  | exitNoDevices : StartupResult
  | running (interval : ℤ) : StartupResult
deriving DecidableEq

/-- The startup path of `poll_loop` (tracker.py lines 74, 88-91): read the
interval with default 30, exit if no devices were found, otherwise run the
loop with that interval.  No other check is made before the loop starts. -/
def poll_loop_startup (cfg_polling : Option ℤ) (devices : List String) :
    StartupResult :=
  if devices.isEmpty then StartupResult.exitNoDevices
  else StartupResult.running (interval cfg_polling)

/-- Concrete instants used as test inputs. -/
def iA : Instant := ⟨0, 2026, 1, 5, 9, 0, 0⟩

/-- A second concrete instant, 60 seconds after `iA`. -/
def iB : Instant := ⟨60, 2026, 1, 5, 9, 1, 0⟩

/-- A third concrete instant, 600 seconds after `iA`. -/
def iC : Instant := ⟨600, 2026, 1, 5, 9, 10, 0⟩

/-- Claim C5 (confirmed): with no baseline yet (`prev_state = None`, as at
loop entry and as `initialState` has it), a successful poll of any state
`v` emits no event and only records `v` as the new `prev_state`, leaving
`last_open_time` untouched. -/
theorem first_observation_no_event (v : String) (b : Bool) (now : Instant)
    (lo : Option Instant) :
    loopIter ⟨none, lo⟩ (PollInput.ok v b now) = (⟨some v, lo⟩, IterResult.noEvent) :=
  rfl

/-- Claim C7 (confirmed): a transient poll failure leaves the loop state
exactly as it was and emits no event, and a run with the failure inserted
is indistinguishable from the run without it: detection resumes on the
next successful poll. -/
theorem poll_failure_preserves_state (s : LoopState) (tr : List PollInput) :
    loopIter s PollInput.fail = (s, IterResult.noEvent) ∧
      runTrace s (PollInput.fail :: tr) = runTrace s tr :=
  ⟨rfl, rfl⟩

/-- After a successful poll of `v` whose sink write (if any) succeeded,
`prev_state` is `some v`. -/
theorem prev_state_after_ok (s : LoopState) (v : String) (now : Instant) :
    ((loopIter s (PollInput.ok v true now)).1).prev_state = some v := by
  rcases s with ⟨p, lo⟩
  rcases p with _ | p
  · rfl
  · by_cases hvp : v = p
    · simp [loopIter, hvp]
    · by_cases hvo : v = "open"
      · subst hvo
        simp [loopIter, hvp]
      · by_cases hvc : v = "closed"
        · subst hvc
          rcases lo with _ | lo <;> simp [loopIter, hvp, hvo]
        · simp [loopIter, hvp, hvo, hvc]

/-- Claim C6 (corrected): if an iteration polls state `v` and completes —
its sink write, if one was made, succeeded — then a second consecutive
poll of the same `v` emits no event and leaves the loop state unchanged,
whatever its own sink flag is.  The completion caveat is forced: when the
first observation's sink write fails, the second consecutive poll of the
same state does emit (see the counterexample below). -/
theorem repeated_state_no_event (s s1 : LoopState) (v : String) (b : Bool)
    (i1 i2 : Instant) (r1 : IterResult)
    (h : loopIter s (PollInput.ok v true i1) = (s1, r1)) :
    loopIter s1 (PollInput.ok v b i2) = (s1, IterResult.noEvent) := by
  have hp : s1.prev_state = some v := by
    have := prev_state_after_ok s v i1
    rw [h] at this
    exact this
  rcases s1 with ⟨p1, lo1⟩
  simp only at hp
  subst hp
  simp [loopIter]

/-- Claim C6 witness: after observing "open" from a baseline of "closed",
a second consecutive poll of "open" emits nothing and keeps the state. -/
theorem repeated_state_no_event_witness :
    loopIter ⟨some "open", some iA⟩ (PollInput.ok "open" false iB) =
      (⟨some "open", some iA⟩, IterResult.noEvent) :=
  repeated_state_no_event ⟨some "closed", none⟩ ⟨some "open", some iA⟩ "open"
    false iA iB (IterResult.recorded ⟨iA, "OPEN", none, ""⟩) (by decide)

/-- Claim C6 counterexample: two consecutive successful polls of the same
state "open", where the first is a transition whose sink write fails.
Line 125 is skipped by the raised exception, so the second consecutive
observation of the very same state — contrary to the claim — emits a
recorded OPEN event and changes the detector state. -/
theorem repeated_state_reemits_after_failed_write :
    (loopIter ⟨some "closed", none⟩ (PollInput.ok "open" false iB)).2 =
        IterResult.sinkError ⟨iB, "OPEN", none, ""⟩ ∧
      (loopIter (loopIter ⟨some "closed", none⟩ (PollInput.ok "open" false iB)).1
          (PollInput.ok "open" true iC)).2 =
        IterResult.recorded ⟨iC, "OPEN", none, ""⟩ ∧
      (loopIter (loopIter ⟨some "closed", none⟩ (PollInput.ok "open" false iB)).1
          (PollInput.ok "open" true iC)).1 ≠
        (loopIter ⟨some "closed", none⟩ (PollInput.ok "open" false iB)).1 := by
  decide

/-- Claim C3 counterexample: a configured interval of -5 is not rejected
at startup; `poll_loop` proceeds into the loop and uses -5 as its sleep
interval. -/
theorem interval_not_validated :
    (-5 : ℤ) ≤ 0 ∧
      poll_loop_startup (some (-5)) ["garage door"] = StartupResult.running (-5) :=
  ⟨by decide, rfl⟩

/-- Claim C3 (corrected): the interval defaults to 30 when unset, and
whatever value is configured — including values ≤ 0 — is passed through to
the running loop unvalidated; the only startup exit on this path is the
empty device list. -/
theorem interval_default_and_unchecked (cfg_polling : Option ℤ)
    (devices : List String) (hds : devices ≠ []) :
    interval none = 30 ∧
      poll_loop_startup cfg_polling devices =
        StartupResult.running (interval cfg_polling) := by
  refine ⟨rfl, ?_⟩
  simp [poll_loop_startup, hds]

/-- Claim C3 witness: with a configured interval of 0 and one device, the
loop runs with interval 0 (and the default is 30). -/
theorem interval_default_and_unchecked_witness :
    interval none = 30 ∧
      poll_loop_startup (some 0) ["garage door"] =
        StartupResult.running (interval (some 0)) :=
  interval_default_and_unchecked (some 0) ["garage door"] (by decide)

/-- Claim C1 counterexample: from a baseline of "closed", an OPEN
transition whose sink write fails leaves `prev_state` at "closed" (line
125 is skipped by the raised exception), so the next successful poll of
the still-open door re-detects the transition and records an OPEN row —
the event is retried on a later iteration, not dropped for good. -/
theorem sink_failure_retries :
    (loopIter ⟨some "closed", none⟩ (PollInput.ok "open" false iA)).2 =
        IterResult.sinkError ⟨iA, "OPEN", none, ""⟩ ∧
      (loopIter ⟨some "closed", none⟩ (PollInput.ok "open" false iA)).1 =
        ⟨some "closed", some iA⟩ ∧
      (loopIter ⟨some "closed", some iA⟩ (PollInput.ok "open" true iB)).2 =
        IterResult.recorded ⟨iB, "OPEN", none, ""⟩ := by
  decide

/-- Claim C1 (corrected): when recording a transition event fails, the
exception is caught so the iteration completes and the loop keeps
monitoring (no crash); but because `prev_state` is only advanced after a
successful `append_row`, the write failure leaves `prev_state` at its old
value, and the next successful poll of the unchanged device state
re-detects the transition and records it — a retry with a fresh
timestamp, rather than a permanent drop.  For a failed OPEN write,
`last_open_time` has already been set to the failing poll's instant
(line 116 runs before line 117); for a failed CLOSE write the state is
fully preserved (lines 123 and 125 are both skipped) and the retried
CLOSE recomputes its duration from the kept `last_open_time`. -/
theorem sink_failure_caught_and_retried (s : LoopState) (p : String)
    (iF iS : Instant) (hp : s.prev_state = some p) :
    (p ≠ "open" →
      (loopIter s (PollInput.ok "open" false iF)).2 =
          IterResult.sinkError ⟨iF, "OPEN", none, ""⟩ ∧
        ((loopIter s (PollInput.ok "open" false iF)).1).prev_state = some p ∧
        ((loopIter s (PollInput.ok "open" false iF)).1).last_open_time = some iF ∧
        (loopIter (loopIter s (PollInput.ok "open" false iF)).1
            (PollInput.ok "open" true iS)).2 =
          IterResult.recorded ⟨iS, "OPEN", none, ""⟩) ∧
    (p ≠ "closed" →
      (loopIter s (PollInput.ok "closed" false iF)).1 = s ∧
        (loopIter s (PollInput.ok "closed" false iF)).2 =
          IterResult.sinkError ⟨iF, "CLOSE",
            s.last_open_time.map (fun lo => (iF.epochSeconds - lo.epochSeconds) / 60),
            ""⟩ ∧
        (loopIter (loopIter s (PollInput.ok "closed" false iF)).1
            (PollInput.ok "closed" true iS)).2 =
          IterResult.recorded ⟨iS, "CLOSE",
            s.last_open_time.map (fun lo => (iS.epochSeconds - lo.epochSeconds) / 60),
            ""⟩) := by
  rcases s with ⟨ps, lo⟩
  simp only at hp
  subst hp
  constructor
  · intro hpo
    have hop : ¬("open" = p) := fun h => hpo h.symm
    simp [loopIter, hop]
  · intro hpc
    have hcp : ¬("closed" = p) := fun h => hpc h.symm
    rcases lo with _ | lo <;> simp [loopIter, hcp]

/-- Claim C1 witness: the amended behaviour, for a failing OPEN write and
for a failing CLOSE write, at a concrete state and concrete instants. -/
theorem sink_failure_caught_and_retried_witness :
    ((loopIter ⟨some "opening", some iA⟩ (PollInput.ok "open" false iB)).2 =
          IterResult.sinkError ⟨iB, "OPEN", none, ""⟩ ∧
        ((loopIter ⟨some "opening", some iA⟩ (PollInput.ok "open" false iB)).1).prev_state =
          some "opening" ∧
        ((loopIter ⟨some "opening", some iA⟩ (PollInput.ok "open" false iB)).1).last_open_time =
          some iB ∧
        (loopIter (loopIter ⟨some "opening", some iA⟩ (PollInput.ok "open" false iB)).1
            (PollInput.ok "open" true iC)).2 =
          IterResult.recorded ⟨iC, "OPEN", none, ""⟩) ∧
      ((loopIter ⟨some "opening", some iA⟩ (PollInput.ok "closed" false iB)).1 =
          ⟨some "opening", some iA⟩ ∧
        (loopIter ⟨some "opening", some iA⟩ (PollInput.ok "closed" false iB)).2 =
          IterResult.sinkError ⟨iB, "CLOSE",
            (some iA).map (fun lo => (iB.epochSeconds - lo.epochSeconds) / 60), ""⟩ ∧
        (loopIter (loopIter ⟨some "opening", some iA⟩ (PollInput.ok "closed" false iB)).1
            (PollInput.ok "closed" true iC)).2 =
          IterResult.recorded ⟨iC, "CLOSE",
            (some iA).map (fun lo => (iC.epochSeconds - lo.epochSeconds) / 60), ""⟩) := by
  have h := sink_failure_caught_and_retried ⟨some "opening", some iA⟩ "opening" iB iC rfl
  exact ⟨h.1 (by decide), h.2 (by decide)⟩

/-- Claim C4 (confirmed): an OPEN transition observed at `tOpen` followed
by a CLOSED transition observed at `tClose` (both iterations completing
their sink writes) yields a CLOSE event whose duration is exactly
`(tClose - tOpen)` seconds divided by 60 — minutes, exact over ℚ and hence
within any floating-point tolerance. -/
theorem close_duration_exact (s s1 s2 : LoopState) (p : String)
    (e1 e2 : Event) (tOpen tClose : Instant)
    (hp : s.prev_state = some p) (hpo : p ≠ "open")
    (h1 : loopIter s (PollInput.ok "open" true tOpen) = (s1, IterResult.recorded e1))
    (h2 : loopIter s1 (PollInput.ok "closed" true tClose) = (s2, IterResult.recorded e2))
    (_hlt : tOpen.epochSeconds < tClose.epochSeconds) :
    e2.duration_min = some ((tClose.epochSeconds - tOpen.epochSeconds) / 60) := by
  rcases s with ⟨ps, lo⟩
  simp only at hp
  subst hp
  have hop : ¬("open" = p) := fun h => hpo h.symm
  simp [loopIter, hop] at h1
  rcases h1 with ⟨h1s, h1e⟩
  subst h1s
  simp [loopIter] at h2
  rcases h2 with ⟨h2s, h2e⟩
  subst h2e
  rfl

/-- Claim C4 witness: the spec's own scenario — OPEN at t=60s, CLOSE at
t=600s — yields a duration of exactly 9 minutes. -/
theorem close_duration_exact_witness :
    iB.epochSeconds < iC.epochSeconds ∧
      (Event.mk iC "CLOSE" (some ((iC.epochSeconds - iB.epochSeconds) / 60)) "").duration_min =
        some ((iC.epochSeconds - iB.epochSeconds) / 60) ∧
      (iC.epochSeconds - iB.epochSeconds) / 60 = 9 := by
  refine ⟨by norm_num [iB, iC], ?_, by norm_num [iB, iC]⟩
  exact close_duration_exact ⟨some "closed", none⟩ ⟨some "open", some iB⟩
    ⟨some "closed", none⟩ "closed" ⟨iB, "OPEN", none, ""⟩
    ⟨iC, "CLOSE", some ((iC.epochSeconds - iB.epochSeconds) / 60), ""⟩ iB iC rfl
    (by decide) rfl rfl (by norm_num [iB, iC])

/-- Claim C8 (confirmed): a CLOSED transition (previous state was neither
`None` nor "closed") observed while `last_open_time` is `None` produces a
CLOSE event whose duration is `None`, whether or not the sink write
succeeds. -/
theorem close_without_open_no_duration (s : LoopState) (p : String) (b : Bool)
    (now : Instant) (hp : s.prev_state = some p) (hpc : p ≠ "closed")
    (hlo : s.last_open_time = none) :
    eventOf (loopIter s (PollInput.ok "closed" b now)).2 =
      some ⟨now, "CLOSE", none, ""⟩ := by
  rcases s with ⟨ps, lo⟩
  simp only at hp hlo
  subst hp
  subst hlo
  have hcp : ¬("closed" = p) := fun h => hpc h.symm
  rcases b with _ | _ <;> simp [loopIter, hcp, eventOf]

/-- Claim C8 witness: first observation "open" establishes only the
baseline (so `last_open_time` stays `None`); the following "closed" poll
emits a CLOSE event with no duration. -/
theorem close_without_open_no_duration_witness :
    eventOf (loopIter ⟨some "open", none⟩ (PollInput.ok "closed" true iB)).2 =
      some ⟨iB, "CLOSE", none, ""⟩ :=
  close_without_open_no_duration ⟨some "open", none⟩ "open" true iB rfl
    (by decide) rfl

/-- `lastOr` distributes over list append. -/
theorem lastOr_append (xs ys : List Event) (l : Option Event) :
    lastOr (xs ++ ys) l = lastOr ys (lastOr xs l) := by
  induction xs generalizing l with
  | nil => rfl
  | cons e xs ih => simp [lastOr, ih]

/-- One iteration whose sink write (if any) succeeds preserves the
`openInv` invariant, where the tracked last-emitted event is updated by
the event (if any) this iteration passed to `append_row`. -/
theorem openInv_step (s : LoopState) (v : String) (now : Instant)
    (l : Option Event) (h : openInv s l) :
    openInv (loopIter s (PollInput.ok v true now)).1
      (lastOr (eventOf (loopIter s (PollInput.ok v true now)).2).toList l) := by
  rcases s with ⟨p, lo⟩
  rcases p with _ | p
  · simpa [loopIter, eventOf, lastOr, openInv] using h
  · by_cases hvp : v = p
    · simpa [loopIter, hvp, eventOf, lastOr, openInv] using h
    · by_cases hvo : v = "open"
      · subst hvo
        simp [loopIter, hvp, eventOf, lastOr, openInv]
      · by_cases hvc : v = "closed"
        · subst hvc
          rcases lo with _ | lo <;>
            simp [loopIter, hvp, hvo, eventOf, lastOr, openInv]
        · simpa [loopIter, hvp, hvo, hvc, eventOf, lastOr, openInv] using h

/-- Over any run whose iterations all have succeeding sink writes, the
`openInv` invariant carries from the initial state and last-emitted event
to the final ones. -/
theorem openInv_run (tr : List PollInput) :
    ∀ (s : LoopState) (l : Option Event), tr.all sinkOkInput = true →
      openInv s l →
      openInv (runTrace s tr).1 (lastOr (runTrace s tr).2 l) := by
  induction tr with
  | nil =>
    intro s l _ h
    simpa [runTrace, lastOr] using h
  | cons i rest ih =>
    intro s l hall h
    rw [List.all_cons, Bool.and_eq_true] at hall
    rw [runTrace]
    simp only
    rw [lastOr_append]
    apply ih _ _ hall.2
    rcases i with _ | ⟨v, b, now⟩
    · simpa [loopIter, eventOf, lastOr] using h
    · have hb : b = true := by simpa [sinkOkInput] using hall.1
      subst hb
      exact openInv_step s v now l h

/-- Claim C2 (corrected): restricted to runs in which every sink write
succeeds (transient poll failures still allowed), every reachable loop
state satisfies the invariant: `last_open_time` is non-empty iff the most
recently emitted event exists and is an OPEN event.  With failing sink
writes the invariant does not hold (see the counterexample). -/
theorem open_invariant_when_sink_ok (tr : List PollInput)
    (hall : tr.all sinkOkInput = true) :
    openInv (runTrace initialState tr).1
      (lastOr (runTrace initialState tr).2 none) :=
  openInv_run tr initialState none hall (by simp [initialState, openInv])

/-- Claim C2 witness: a concrete all-writes-succeed run ending right after
an OPEN event, where the invariant is checked to hold. -/
theorem open_invariant_when_sink_ok_witness :
    openInv
      (runTrace initialState
        [PollInput.ok "closed" true iA, PollInput.ok "open" true iB]).1
      (lastOr
        (runTrace initialState
          [PollInput.ok "closed" true iA, PollInput.ok "open" true iB]).2 none) :=
  open_invariant_when_sink_ok
    [PollInput.ok "closed" true iA, PollInput.ok "open" true iB] (by decide)

/-- The reachable run refuting claim C2 as stated: baseline "closed", an
OPEN transition whose write succeeds, then a CLOSED transition whose sink
write fails. -/
def cexTrace : List PollInput :=
  [PollInput.ok "closed" true iA, PollInput.ok "open" true iB,
    PollInput.ok "closed" false iC]

/-- Claim C2 counterexample: on `cexTrace` the most recently emitted event
is the CLOSE passed to the failing `append_row`, yet `last_open_time` is
still set (line 123 was skipped by the exception), so the stated
invariant is false in a reachable state. -/
theorem open_invariant_violated :
    ¬ openInv (runTrace initialState cexTrace).1
      (lastOr (runTrace initialState cexTrace).2 none) := by
  intro h
  have hlo : (runTrace initialState cexTrace).1.last_open_time = some iB := by
    simp [cexTrace, runTrace, loopIter, eventOf, initialState]
  have hlast :
      (lastOr (runTrace initialState cexTrace).2 none).map Event.kind =
        some "CLOSE" := by
    simp [cexTrace, runTrace, loopIter, eventOf, lastOr, initialState]
  rw [openInv, hlast] at h
  have := h.1 (by rw [hlo]; exact Option.some_ne_none iB)
  simp at this

/-- Claim C10 (confirmed): a successfully polled value `v` outside
{"open", "closed"} (such as "opening" or "closing") emits no event but
still overwrites `prev_state` with `v`; a subsequent poll of "open" then
emits an OPEN event, and a subsequent poll of "closed" emits a CLOSE
event — each is treated as a transition from the intermediate value. -/
theorem intermediate_state_overwrites_prev (s : LoopState) (p v : String)
    (b : Bool) (now : Instant) (hp : s.prev_state = some p)
    (hvo : v ≠ "open") (hvc : v ≠ "closed") :
    loopIter s (PollInput.ok v b now) =
        ({ s with prev_state := some v }, IterResult.noEvent) ∧
      (∀ (b2 : Bool) (n2 : Instant),
        eventOf (loopIter { s with prev_state := some v }
            (PollInput.ok "open" b2 n2)).2 = some ⟨n2, "OPEN", none, ""⟩) ∧
      (∀ (b2 : Bool) (n2 : Instant),
        (eventOf (loopIter { s with prev_state := some v }
            (PollInput.ok "closed" b2 n2)).2).map Event.kind = some "CLOSE") := by
  rcases s with ⟨ps, lo⟩
  simp only at hp
  subst hp
  have hov : ¬("open" = v) := fun h => hvo h.symm
  have hcv : ¬("closed" = v) := fun h => hvc h.symm
  refine ⟨?_, ?_, ?_⟩
  · by_cases hvp : v = p
    · simp [loopIter, hvp]
    · simp [loopIter, hvp, hvo, hvc]
  · intro b2 n2
    rcases b2 with _ | _ <;> simp [loopIter, hov, eventOf]
  · intro b2 n2
    rcases lo with _ | lo <;> rcases b2 with _ | _ <;>
      simp [loopIter, hcv, eventOf]

/-- Claim C10 witness: the behaviour at the concrete intermediate value
"opening" from a baseline of "closed". -/
theorem intermediate_state_overwrites_prev_witness :
    loopIter ⟨some "closed", none⟩ (PollInput.ok "opening" true iA) =
        ({ (⟨some "closed", none⟩ : LoopState) with prev_state := some "opening" },
          IterResult.noEvent) ∧
      (∀ (b2 : Bool) (n2 : Instant),
        eventOf (loopIter { (⟨some "closed", none⟩ : LoopState) with
            prev_state := some "opening" } (PollInput.ok "open" b2 n2)).2 =
          some ⟨n2, "OPEN", none, ""⟩) ∧
      (∀ (b2 : Bool) (n2 : Instant),
        (eventOf (loopIter { (⟨some "closed", none⟩ : LoopState) with
            prev_state := some "opening" } (PollInput.ok "closed" b2 n2)).2).map
          Event.kind = some "CLOSE") :=
  intermediate_state_overwrites_prev ⟨some "closed", none⟩ "closed" "opening"
    true iA rfl (by decide) (by decide)

/-- Any event an iteration passes to `append_row` has kind "OPEN" or
"CLOSE" and empty notes (the loop only ever calls `append_row` at lines
117 and 122, with notes `""`). -/
theorem emitted_event_shape (s : LoopState) (i : PollInput) (e : Event)
    (h : eventOf (loopIter s i).2 = some e) :
    (e.kind = "OPEN" ∨ e.kind = "CLOSE") ∧ e.notes = "" := by
  rcases i with _ | ⟨v, b, now⟩
  · simp [loopIter, eventOf] at h
  · rcases s with ⟨ps, lo⟩
    rcases ps with _ | p
    · simp [loopIter, eventOf] at h
    · by_cases hvp : v = p
      · simp [loopIter, hvp, eventOf] at h
      · by_cases hvo : v = "open"
        · subst hvo
          rcases b with _ | _ <;> simp [loopIter, hvp, eventOf] at h <;>
            subst h <;> exact ⟨Or.inl rfl, rfl⟩
        · by_cases hvc : v = "closed"
          · subst hvc
            rcases lo with _ | lo <;> rcases b with _ | _ <;>
              simp [loopIter, hvp, hvo, eventOf] at h <;>
              subst h <;> exact ⟨Or.inr rfl, rfl⟩
          · simp [loopIter, hvp, hvo, hvc, eventOf] at h

/-- Claim C9 (confirmed): every event the loop hands to `append_row` has
kind "OPEN" or "CLOSE" and empty notes, and `append_row` renders it — in
durable mode — as exactly the row `[strftime timestamp, kind, one-decimal
duration or empty string, notes]`, and — in dry-run mode — as the printed
line carrying the same four fields; the duration field is the empty
string when the duration is absent and a one-decimal rendering when
present. -/
theorem recorded_row_shape (s : LoopState) (i : PollInput) (e : Event)
    (h : eventOf (loopIter s i).2 = some e) :
    (e.kind = "OPEN" ∨ e.kind = "CLOSE") ∧ e.notes = "" ∧
      append_row (strftimeUTC e.ts) e.kind e.duration_min e.notes false =
        SinkOutput.appended
          [strftimeUTC e.ts, e.kind, dur_str e.duration_min, e.notes] ∧
      append_row (strftimeUTC e.ts) e.kind e.duration_min e.notes true =
        SinkOutput.printed ("[DRY RUN]  " ++ strftimeUTC e.ts ++ "  " ++
          padRight e.kind 6 ++ "  dur=" ++ padLeft (dur_str e.duration_min) 6 ++
          " min  notes=" ++ e.notes) ∧
      (e.duration_min = none → dur_str e.duration_min = "") ∧
      (∀ d : ℚ, e.duration_min = some d →
        ∃ (pre : String) (dig : ℕ),
          dur_str e.duration_min = pre ++ "." ++ toString dig ∧ dig < 10) := by
  obtain ⟨hk, hn⟩ := emitted_event_shape s i e h
  refine ⟨hk, hn, rfl, rfl, ?_, ?_⟩
  · intro hd
    rw [hd]
    rfl
  · intro d hd
    rw [hd]
    by_cases hneg : roundHalfEven (10 * d) < 0
    · exact ⟨"-" ++ toString ((roundHalfEven (10 * d)).natAbs / 10),
        (roundHalfEven (10 * d)).natAbs % 10,
        by simp only [dur_str, fmt1, if_pos hneg], Nat.mod_lt _ (by norm_num)⟩
    · exact ⟨toString ((roundHalfEven (10 * d)).toNat / 10),
        (roundHalfEven (10 * d)).toNat % 10,
        by simp only [dur_str, fmt1, if_neg hneg], Nat.mod_lt _ (by norm_num)⟩

/-- Claim C9 witness: the row shape at a concrete OPEN event emitted from
a baseline of "closed". -/
theorem recorded_row_shape_witness :
    ((Event.mk iA "OPEN" none "").kind = "OPEN" ∨
        (Event.mk iA "OPEN" none "").kind = "CLOSE") ∧
      (Event.mk iA "OPEN" none "").notes = "" ∧
      append_row (strftimeUTC (Event.mk iA "OPEN" none "").ts)
          (Event.mk iA "OPEN" none "").kind
          (Event.mk iA "OPEN" none "").duration_min
          (Event.mk iA "OPEN" none "").notes false =
        SinkOutput.appended
          [strftimeUTC (Event.mk iA "OPEN" none "").ts,
            (Event.mk iA "OPEN" none "").kind,
            dur_str (Event.mk iA "OPEN" none "").duration_min,
            (Event.mk iA "OPEN" none "").notes] ∧
      append_row (strftimeUTC (Event.mk iA "OPEN" none "").ts)
          (Event.mk iA "OPEN" none "").kind
          (Event.mk iA "OPEN" none "").duration_min
          (Event.mk iA "OPEN" none "").notes true =
        SinkOutput.printed ("[DRY RUN]  " ++
          strftimeUTC (Event.mk iA "OPEN" none "").ts ++ "  " ++
          padRight (Event.mk iA "OPEN" none "").kind 6 ++ "  dur=" ++
          padLeft (dur_str (Event.mk iA "OPEN" none "").duration_min) 6 ++
          " min  notes=" ++ (Event.mk iA "OPEN" none "").notes) ∧
      ((Event.mk iA "OPEN" none "").duration_min = none →
        dur_str (Event.mk iA "OPEN" none "").duration_min = "") ∧
      (∀ d : ℚ, (Event.mk iA "OPEN" none "").duration_min = some d →
        ∃ (pre : String) (dig : ℕ),
          dur_str (Event.mk iA "OPEN" none "").duration_min =
            pre ++ "." ++ toString dig ∧ dig < 10) :=
  recorded_row_shape ⟨some "closed", none⟩ (PollInput.ok "open" true iA)
    (Event.mk iA "OPEN" none "") (by decide)

end BreakTracker
